import Mathlib

/-!
Verification of `go-example.go`.

A shallow embedding of `backend/test-examples/go-example.go` and the
properties of its three functions `getUser`, `deleteFile` and
`unsafeOperation`.

* Go strings are byte sequences; they are modelled as lists of byte values.
* `db`, `request` and the operating system are the environment: an `Env`
  answers every external call as a function of the calls made so far, so any
  deterministic environment, stateful or not, is covered.
* A function of the file is a transition on `ProgState` (the two package-level
  variables and the log of external calls), inside `Option`: `none` would mean
  that the formatting directive met is outside the modelled part of `fmt`.
-/

namespace GoExample

/-! ## Go strings -/

/-- A Go string: a sequence of bytes (not necessarily valid UTF-8). -/
abbrev GoString := List Nat

/-- The bytes of a string literal of the source. Every literal of the source
is ASCII, where the UTF-8 encoding of a character is its code point. -/
def str (s : String) : GoString := s.data.map Char.toNat

/-- The byte of the percent sign. -/
def pct : Nat := 37

/-- The byte of the single quote. -/
def quote : Nat := 39

/-- The byte of the slash, the path separator. -/
def slash : Nat := 47

/-! ## The fragment of `fmt.Sprintf` the file uses -/

/-- What `fmt` appends when operands are left over after the format is
consumed: `%!(EXTRA string=a, string=b)`. -/
def extraArgs : List GoString → GoString
  | [] => []
  | a :: rest =>
    str "%!(EXTRA string=" ++ a ++
      (rest.map (fun b => str ", string=" ++ b)).flatten ++ str ")"

/-- The scanning loop of `fmt.Sprintf` on string operands: bytes other than
the percent sign are copied, `%%` gives a percent sign, `%s` and `%v` give the
next operand unchanged (`%!s(MISSING)` when there is none), a trailing
percent sign gives `%!(NOVERB)`. Flags, widths and the other verbs are not
modelled: the result is `none` there. -/
def sprintfLoop : List Nat → List GoString → Option GoString
  | [], args => some (extraArgs args)
  | c :: rest, args =>
    if c ≠ pct then
      (sprintfLoop rest args).map (fun out => c :: out)
    else
      match rest, args with
      | [], args => some (str "%!(NOVERB)" ++ extraArgs args)
      | v :: rest', args =>
        if v = pct then
          (sprintfLoop rest' args).map (fun out => pct :: out)
        else if v = 115 ∨ v = 118 then
          match args with
          | [] => (sprintfLoop rest' []).map
              (fun out => str "%!" ++ [v] ++ str "(MISSING)" ++ out)
          | a :: args' => (sprintfLoop rest' args').map (fun out => a ++ out)
        else none

/-- The call `fmt.Sprintf(format, a...)` with string operands. -/
def Sprintf (format : GoString) (a : List GoString) : Option GoString :=
  sprintfLoop format a

/-! ## The environment -/

/-- The command structure `exec.Command` returns: the path of the program and
the argument vector, program name first. -/
structure Cmd where
  Path : GoString
  Args : List GoString
  deriving DecidableEq, Repr

/-- An external call with its arguments, as the file makes it. -/
inductive Call where
  | dbQuery (query : GoString)
  | formValue (key : GoString)
  | execCommand (name : GoString) (arg : List GoString)
  | cmdRun (cmd : Cmd)
  deriving DecidableEq, Repr

/-- The two results of `db.Query`: rows, or an error. -/
abbrev QueryResult := Except GoString (List (List GoString))

/-- The world outside the file. `dbQuery` and `cmdRun` answer as a function of
the calls made so far; `formValue` is the form of the request at hand;
`lookPath` is the search of the program in the directories of `PATH`.
For `cmdRun`, `none` is the nil error. -/
structure Env where
  dbQuery : List Call → GoString → QueryResult
  formValue : GoString → GoString
  lookPath : GoString → Option GoString
  cmdRun : List Call → Cmd → Option GoString

/-- The state of the program: the two package-level variables, and the
external calls made so far, oldest first. -/
structure ProgState where
  password : GoString
  apiKey : GoString
  calls : List Call
  deriving DecidableEq, Repr

/-- A function body of the file: a transition on the state. -/
abbrev Prog := StateT ProgState Option

/-- The initial state: `var password = "secret123"`,
`var apiKey = "sk-1234567890abcdef"`, and no call made. -/
def initState : ProgState :=
  { password := str "secret123", apiKey := str "sk-1234567890abcdef", calls := [] }

/-- The call `db.Query(query)`. -/
def dbQuery (env : Env) (query : GoString) : Prog QueryResult := fun s =>
  some (env.dbQuery s.calls query, { s with calls := s.calls ++ [Call.dbQuery query] })

/-- The call `request.FormValue(key)`. -/
def formValue (env : Env) (key : GoString) : Prog GoString := fun s =>
  some (env.formValue key, { s with calls := s.calls ++ [Call.formValue key] })

/-- The call `exec.Command(name, arg...)`: `Args` is the name followed by the
arguments; `Path` is the name, resolved through `LookPath` when the name is
not empty, has no path separator, and the search finds it. -/
def execCommand (env : Env) (name : GoString) (arg : List GoString) : Prog Cmd := fun s =>
  let path := if name = [] ∨ slash ∈ name then name else (env.lookPath name).getD name
  some ({ Path := path, Args := name :: arg },
    { s with calls := s.calls ++ [Call.execCommand name arg] })

/-- The call `cmd.Run()`. -/
def cmdRun (env : Env) (cmd : Cmd) : Prog (Option GoString) := fun s =>
  some (env.cmdRun s.calls cmd, { s with calls := s.calls ++ [Call.cmdRun cmd] })

/-! ## The three functions of the file -/

/-- The function `getUser(userID string)`. -/
def getUser (env : Env) (userID : GoString) : Prog Unit := do
  let query := str "SELECT * FROM users WHERE id = " ++ userID
  let _ ← dbQuery env query
  let name ← formValue env (str "name")
  let query2 ← (Sprintf (str "SELECT * FROM users WHERE name = '%s'") [name] : Option GoString)
  let _ ← dbQuery env query2

/-- The function `deleteFile(filename string)`. -/
def deleteFile (env : Env) (filename : GoString) : Prog Unit := do
  let cmd ← execCommand env (str "rm") [str "-rf", filename]
  let _ ← cmdRun env cmd

/-- The function `unsafeOperation()`: it declares a nil pointer and does
nothing with it. -/
def unsafeOperation : Prog Unit := do
  let _ptr : Option Nat := none
  pure ()

/-- A call of one of the three functions, with its argument. -/
inductive Op where
  | getUser (userID : GoString)
  | deleteFile (filename : GoString)
  | unsafeOperation
  deriving DecidableEq, Repr

/-- Running one call. -/
def run (env : Env) : Op → Prog Unit
  | Op.getUser userID => getUser env userID
  | Op.deleteFile filename => deleteFile env filename
  | Op.unsafeOperation => unsafeOperation

/-- The states reachable from the initial one by calls of the three functions,
with any arguments, in any environment. -/
inductive Reachable : ProgState → Prop where
  | init : Reachable initState
  | call (env : Env) (op : Op) (s s' : ProgState) :
      Reachable s → run env op s = some ((), s') → Reachable s'

/-- The external calls a run from `s` adds to the log. -/
def callsMade (p : Prog Unit) (s : ProgState) : Option (List Call) :=
  (p s).map (fun r => r.2.calls.drop s.calls.length)

/-- The queries handed to `db.Query` among a list of calls, in order. -/
def queries : List Call → List GoString
  | [] => []
  | Call.dbQuery q :: rest => q :: queries rest
  | _ :: rest => queries rest

/-- The commands handed to `cmd.Run` among a list of calls, in order. -/
def commandsRun : List Call → List Cmd
  | [] => []
  | Call.cmdRun c :: rest => c :: commandsRun rest
  | _ :: rest => commandsRun rest

/-- The function an external call goes to, without its arguments. -/
def callee : Call → String
  | Call.dbQuery _ => "db.Query"
  | Call.formValue _ => "request.FormValue"
  | Call.execCommand _ _ => "exec.Command"
  | Call.cmdRun _ => "cmd.Run"

/-- The functions called, in order, by a run of `op` from `s`. -/
def calleesOf (env : Env) (op : Op) (s : ProgState) : Option (List String) :=
  (callsMade (run env op) s).map (fun cs => cs.map callee)

/-! ## The declarations of the file -/

/-- A function declaration: name, parameters with their types, result types,
the variables declared in the body, and the identifiers the body refers to
(selectors after a dot left out), in order of first occurrence. -/
structure FuncDecl where
  name : String
  params : List (String × String)
  results : List String
  locals : List String
  uses : List String
  deriving DecidableEq, Repr

/-- A top-level declaration of a Go file. -/
inductive TopDecl where
  | importDecl (paths : List String)
  | varDecl (name : String) (literal : String)
  | funcDecl (f : FuncDecl)
  deriving DecidableEq, Repr

/-- The top-level declarations of `go-example.go`, in source order. -/
def goExample : List TopDecl :=
  [ TopDecl.importDecl ["database/sql", "fmt", "os/exec", "unsafe"],
    TopDecl.varDecl "password" "secret123",
    TopDecl.varDecl "apiKey" "sk-1234567890abcdef",
    TopDecl.funcDecl ⟨"getUser", [("userID", "string")], [], ["query", "name", "query2"],
      ["query", "userID", "db", "name", "request", "query2", "fmt"]⟩,
    TopDecl.funcDecl ⟨"deleteFile", [("filename", "string")], [], ["cmd"],
      ["cmd", "exec", "filename"]⟩,
    TopDecl.funcDecl ⟨"unsafeOperation", [], [], ["ptr"], ["ptr", "unsafe"]⟩ ]

/-- The function declarations among top-level declarations. -/
def funcDecls : List TopDecl → List FuncDecl
  | [] => []
  | TopDecl.funcDecl f :: rest => f :: funcDecls rest
  | _ :: rest => funcDecls rest

/-- The package-level variables among top-level declarations, each with the
literal that initialises it. -/
def packageVars : List TopDecl → List (String × String)
  | [] => []
  | TopDecl.varDecl name literal :: rest => (name, literal) :: packageVars rest
  | _ :: rest => packageVars rest

/-- The last element of an import path: the name the package is used under. -/
def lastSegment : List Char → List Char
  | [] => []
  | c :: rest =>
    if '/' ∈ rest then lastSegment rest
    else if c = '/' then rest
    else c :: rest

/-- The package names the import declarations bring into the file. -/
def importedNames : List TopDecl → List String
  | [] => []
  | TopDecl.importDecl paths :: rest =>
    paths.map (fun path => String.mk (lastSegment path.data)) ++ importedNames rest
  | _ :: rest => importedNames rest

/-- The identifiers a function refers to that the file declares nowhere:
not a parameter or local of the function, not an imported package, not a
package-level variable or a function of the file. -/
def undeclaredIn (file : List TopDecl) (f : FuncDecl) : List String :=
  f.uses.filter (fun x =>
    !(f.params.map (fun prm => prm.1)).contains x
      && !f.locals.contains x
      && !(importedNames file).contains x
      && !((packageVars file).map (fun v => v.1)).contains x
      && !((funcDecls file).map (fun g => g.name)).contains x)

/-! ## Sample inputs -/

/-- An environment where every query fails, the form holds `O'Brien`, `rm` is
found in `/bin` and the command succeeds. -/
def env0 : Env :=
  { dbQuery := fun _ _ => Except.error (str "connection refused"),
    formValue := fun _ => str "O\x27Brien",
    lookPath := fun _ => some (str "/bin/rm"),
    cmdRun := fun _ _ => none }

/-- The state after `getUser("7")` from the initial state in `env0`. -/
def state1 : ProgState :=
  { password := str "secret123", apiKey := str "sk-1234567890abcdef",
    calls := [Call.dbQuery (str "SELECT * FROM users WHERE id = 7"),
              Call.formValue (str "name"),
              Call.dbQuery (str "SELECT * FROM users WHERE name = \x27O\x27Brien\x27")] }

/-! ## What the functions compute -/

theorem Sprintf_name (name : GoString) :
    Sprintf (str "SELECT * FROM users WHERE name = \x27%s\x27") [name]
      = some (str "SELECT * FROM users WHERE name = \x27" ++ name ++ str "\x27") := by
  rfl

theorem getUser_eq (env : Env) (userID : GoString) (s : ProgState) :
    getUser env userID s = some ((), { s with calls := s.calls ++
      [Call.dbQuery (str "SELECT * FROM users WHERE id = " ++ userID),
       Call.formValue (str "name"),
       Call.dbQuery (str "SELECT * FROM users WHERE name = \x27" ++ env.formValue (str "name") ++ str "\x27")] }) := by
  have h : getUser env userID s = some ((), { s with calls := ((s.calls ++
      [Call.dbQuery (str "SELECT * FROM users WHERE id = " ++ userID)]) ++
       [Call.formValue (str "name")]) ++
       [Call.dbQuery (str "SELECT * FROM users WHERE name = \x27" ++ env.formValue (str "name") ++ str "\x27")] }) := rfl
  rw [h]
  simp

theorem deleteFile_eq (env : Env) (filename : GoString) (s : ProgState) :
    deleteFile env filename s = some ((), { s with calls := s.calls ++
      [Call.execCommand (str "rm") [str "-rf", filename],
       Call.cmdRun (Cmd.mk ((env.lookPath (str "rm")).getD (str "rm"))
         [str "rm", str "-rf", filename])] }) := by
  have h : deleteFile env filename s = some ((), { s with calls := (s.calls ++
      [Call.execCommand (str "rm") [str "-rf", filename]]) ++
       [Call.cmdRun (Cmd.mk ((env.lookPath (str "rm")).getD (str "rm"))
         [str "rm", str "-rf", filename])] }) := rfl
  rw [h]
  simp

theorem unsafeOperation_eq (s : ProgState) : unsafeOperation s = some ((), s) := rfl

theorem callsMade_getUser (env : Env) (userID : GoString) (s : ProgState) :
    callsMade (getUser env userID) s = some
      [Call.dbQuery (str "SELECT * FROM users WHERE id = " ++ userID),
       Call.formValue (str "name"),
       Call.dbQuery (str "SELECT * FROM users WHERE name = \x27" ++ env.formValue (str "name") ++ str "\x27")] := by
  simp [callsMade, getUser_eq]

theorem callsMade_deleteFile (env : Env) (filename : GoString) (s : ProgState) :
    callsMade (deleteFile env filename) s = some
      [Call.execCommand (str "rm") [str "-rf", filename],
       Call.cmdRun (Cmd.mk ((env.lookPath (str "rm")).getD (str "rm"))
         [str "rm", str "-rf", filename])] := by
  simp [callsMade, deleteFile_eq]

theorem run_eq (env : Env) (op : Op) (s : ProgState) :
    ∃ cs, run env op s = some ((), { s with calls := s.calls ++ cs }) := by
  cases op with
  | getUser userID => exact ⟨_, getUser_eq env userID s⟩
  | deleteFile filename => exact ⟨_, deleteFile_eq env filename s⟩
  | unsafeOperation => exact ⟨[], by simp [run, unsafeOperation_eq]⟩

theorem run_preserves (env : Env) (op : Op) (s s' : ProgState)
    (h : run env op s = some ((), s')) :
    s'.password = s.password ∧ s'.apiKey = s.apiKey := by
  obtain ⟨cs, hcs⟩ := run_eq env op s
  rw [hcs] at h
  cases h
  exact ⟨rfl, rfl⟩

theorem state1_reachable : Reachable state1 :=
  Reachable.call env0 (Op.getUser (str "7")) initState state1 Reachable.init (by decide)

/-! ## The claims -/

/-- C1: for every `userID`, the first query `getUser` hands to `db.Query` is
the text `SELECT * FROM users WHERE id = ` followed by `userID` unchanged, in
every environment and from every state; for `1 OR 1=1` it is
`SELECT * FROM users WHERE id = 1 OR 1=1`. -/
theorem getUser_first_query (env : Env) (userID : GoString) (s : ProgState) :
    (callsMade (getUser env userID) s).map (fun cs => (queries cs)[0]?)
        = some (some (str "SELECT * FROM users WHERE id = " ++ userID))
      ∧ (callsMade (getUser env (str "1 OR 1=1")) s).map (fun cs => (queries cs)[0]?)
        = some (some (str "SELECT * FROM users WHERE id = 1 OR 1=1")) := by
  constructor
  · simp [callsMade_getUser, queries]
  · simp only [callsMade_getUser, queries, Option.map_some', List.getElem?_cons_zero]
    decide

/-- C2: when `request.FormValue("name")` returns `name`, the second query
`getUser` hands to `db.Query` is `SELECT * FROM users WHERE name = '`, then
`name` unchanged, then `'`: it is what `fmt.Sprintf` gives on the format of
the source, and it holds two single quotes more than `name` does. -/
theorem getUser_second_query (env : Env) (userID : GoString) (s : ProgState)
    (name : GoString) (h : env.formValue (str "name") = name) :
    (callsMade (getUser env userID) s).map (fun cs => (queries cs)[1]?)
        = some (some (str "SELECT * FROM users WHERE name = \x27" ++ name ++ str "\x27"))
      ∧ Sprintf (str "SELECT * FROM users WHERE name = \x27%s\x27") [name]
        = some (str "SELECT * FROM users WHERE name = \x27" ++ name ++ str "\x27")
      ∧ (str "SELECT * FROM users WHERE name = \x27" ++ name ++ str "\x27").count quote
        = 2 + name.count quote := by
  refine ⟨?_, Sprintf_name name, ?_⟩
  · simp [callsMade_getUser, queries, h]
  · rw [List.count_append, List.count_append]
    have h1 : (str "SELECT * FROM users WHERE name = \x27").count quote = 1 := by decide
    have h2 : (str "\x27").count quote = 1 := by decide
    omega

/-- Witness of C2: the form holds `O'Brien`. -/
theorem getUser_second_query_witness :
    env0.formValue (str "name") = str "O\x27Brien"
      ∧ (callsMade (getUser env0 (str "7")) initState).map (fun cs => (queries cs)[1]?)
        = some (some (str "SELECT * FROM users WHERE name = \x27O\x27Brien\x27"))
      ∧ (str "SELECT * FROM users WHERE name = \x27O\x27Brien\x27").count quote = 3 :=
  ⟨rfl, (getUser_second_query env0 (str "7") initState (str "O\x27Brien") rfl).1, by decide⟩

/-- C3: `deleteFile` does not build a command string. For every `filename`
the call is `exec.Command("rm", "-rf", filename)`: three separate strings, and
the first two words of the command run are `rm` and `-rf` whatever `filename`
is; at `x; echo pwned` the argument vector is `rm`, `-rf`, `x; echo pwned`. -/
theorem deleteFile_no_command_string (env : Env) (filename : GoString) (s : ProgState) :
    (callsMade (deleteFile env filename) s).map (fun cs => cs[0]?)
        = some (some (Call.execCommand (str "rm") [str "-rf", filename]))
      ∧ (callsMade (deleteFile env filename) s).map
          (fun cs => (commandsRun cs).map (fun c => c.Args.take 2))
        = some [[str "rm", str "-rf"]]
      ∧ (callsMade (deleteFile env (str "x; echo pwned")) s).map
          (fun cs => (commandsRun cs).map (fun c => c.Args))
        = some [[str "rm", str "-rf", str "x; echo pwned"]] := by
  simp [callsMade_deleteFile, commandsRun]

/-- C4: no outcome of `db.Query` or of `cmd.Run` changes what the functions
do. With the answers of `db.Query` and `cmd.Run` replaced by any others, every
call of the three functions ends in the same state, with the same external
calls made, arguments included; in any two environments at all the same
functions are called in the same order; `getUser` always issues its two
queries and `deleteFile` always returns; and no function of the file declares
a result. -/
theorem outcomes_ignored (env env2 : Env) (q : List Call → GoString → QueryResult)
    (r : List Call → Cmd → Option GoString) (op : Op) (userID filename : GoString)
    (s : ProgState) :
    run { env with dbQuery := q, cmdRun := r } op s = run env op s
      ∧ calleesOf env2 op s = calleesOf env op s
      ∧ callsMade (getUser { env with dbQuery := q } userID) s
          = callsMade (getUser env userID) s
      ∧ (callsMade (getUser env userID) s).map (fun cs => (queries cs).length) = some 2
      ∧ callsMade (deleteFile { env with cmdRun := r } filename) s
          = callsMade (deleteFile env filename) s
      ∧ (deleteFile env filename s).map (fun res => res.1) = some ()
      ∧ (getUser env userID s).map (fun res => res.1) = some ()
      ∧ (funcDecls goExample).map (fun f => f.results) = [[], [], []] := by
  refine ⟨?_, ?_, ?_, ?_, ?_, ?_, ?_, by decide⟩
  · cases op with
    | getUser u => simp [run, getUser_eq]
    | deleteFile f => simp [run, deleteFile_eq]
    | unsafeOperation => rfl
  · cases op with
    | getUser u => simp [calleesOf, run, callsMade_getUser, callee]
    | deleteFile f => simp [calleesOf, run, callsMade_deleteFile, callee]
    | unsafeOperation => rfl
  · simp [callsMade_getUser]
  · simp [callsMade_getUser, queries]
  · simp [callsMade_deleteFile]
  · simp [deleteFile_eq]
  · simp [getUser_eq]

/-- C5, as stated, fails: the file does not define four functions. -/
theorem not_four_functions : (funcDecls goExample).length ≠ 4 := by decide

/-- C5, amended: the file defines exactly three standalone functions,
`getUser`, `deleteFile` and `unsafeOperation`. -/
theorem three_functions :
    (funcDecls goExample).length = 3
      ∧ (funcDecls goExample).map (fun f => f.name)
        = ["getUser", "deleteFile", "unsafeOperation"] := by
  decide

/-- C6, as stated, fails: `password` and `apiKey` are not local variables of
a function, and the file has variables outside every function body. -/
theorem globals_exist :
    ¬ ((∃ f ∈ funcDecls goExample, "password" ∈ f.locals)
        ∧ (∃ f ∈ funcDecls goExample, "apiKey" ∈ f.locals)
        ∧ packageVars goExample = []) := by
  decide

/-- C6, amended: the file declares exactly two variables outside a function
body, `password` and `apiKey`, initialised to literals, which are also the
values of the initial state; neither is a local variable of a function; the
variables declared in function bodies are `query`, `name`, `query2`, then
`cmd`, then `ptr`; and `getUser` refers to `db` and `request`, which are
neither parameters nor locals nor declared anywhere in the file, while the
other two functions refer to nothing the file leaves undeclared. -/
theorem package_level_variables :
    packageVars goExample
        = [("password", "secret123"), ("apiKey", "sk-1234567890abcdef")]
      ∧ (packageVars goExample).map (fun v => str v.2)
        = [initState.password, initState.apiKey]
      ∧ (funcDecls goExample).map (fun f => f.locals)
        = [["query", "name", "query2"], ["cmd"], ["ptr"]]
      ∧ (funcDecls goExample).all
          (fun f => !f.locals.contains "password" && !f.locals.contains "apiKey") = true
      ∧ importedNames goExample = ["sql", "fmt", "exec", "unsafe"]
      ∧ (funcDecls goExample).map (fun f => (f.name, undeclaredIn goExample f))
        = [("getUser", ["db", "request"]), ("deleteFile", []), ("unsafeOperation", [])] := by
  decide

/-- C7: the two credentials are the literals of the source in the initial
state, every call of `getUser`, `deleteFile` or `unsafeOperation` returns and
leaves both unchanged, and so they are these literals in every reachable
state. -/
theorem credentials_constant :
    (initState.password = str "secret123"
        ∧ initState.apiKey = str "sk-1234567890abcdef")
      ∧ (∀ (env : Env) (op : Op) (s : ProgState),
          (run env op s).map (fun res => (res.2.password, res.2.apiKey))
            = some (s.password, s.apiKey))
      ∧ (∀ s : ProgState, Reachable s →
          s.password = str "secret123" ∧ s.apiKey = str "sk-1234567890abcdef") := by
  refine ⟨⟨rfl, rfl⟩, ?_, ?_⟩
  · intro env op s
    obtain ⟨cs, hcs⟩ := run_eq env op s
    simp [hcs]
  · intro s hs
    induction hs with
    | init => exact ⟨rfl, rfl⟩
    | call env op s s' _ hrun ih =>
      obtain ⟨hp, ha⟩ := run_preserves env op s s' hrun
      exact ⟨hp.trans ih.1, ha.trans ih.2⟩

/-- Witness of C7: the state after `getUser("7")` is reachable and holds the
two literals. -/
theorem credentials_constant_witness :
    Reachable state1
      ∧ state1.password = str "secret123" ∧ state1.apiKey = str "sk-1234567890abcdef" :=
  ⟨state1_reachable, credentials_constant.2.2 state1 state1_reachable⟩

/-- C8: for every `filename`, the command `deleteFile` runs was made by
`exec.Command` with the name `rm`, and its argument vector is exactly `rm`,
`-rf`, `filename`: length 3, `filename` whole as third element. Its path is
`rm` or what the search of `rm` found. -/
theorem deleteFile_argv (env : Env) (filename : GoString) (s : ProgState) :
    (callsMade (deleteFile env filename) s).map commandsRun
        = some [Cmd.mk ((env.lookPath (str "rm")).getD (str "rm"))
            [str "rm", str "-rf", filename]]
      ∧ (callsMade (deleteFile env filename) s).map
          (fun cs => (commandsRun cs).map (fun c => c.Args))
        = some [[str "rm", str "-rf", filename]]
      ∧ (callsMade (deleteFile env filename) s).map
          (fun cs => (commandsRun cs).map
            (fun c => (c.Args.length, c.Args[0]?, c.Args[2]?)))
        = some [(3, some (str "rm"), some filename)]
      ∧ (callsMade (deleteFile env filename) s).map (fun cs => cs[0]?)
        = some (some (Call.execCommand (str "rm") [str "-rf", filename])) := by
  simp [callsMade_deleteFile, commandsRun]

end GoExample
